import Mathlib

/-! Verification development for the PanteraAWS backend (backend/main.py).

The file shallowly embeds the backend: a UDP ingestion listener
(`datagram_received`, `insert_location_data`), a PostgreSQL table
`location_data` accessed through an asyncpg pool (`create_location_table`,
the insert statement, and the two SELECT queries), the two FastAPI query
endpoints (`get_latest_location`, `get_all_locations`), and the lifespan
startup logic (`create_db_pool`, `lifespan_startup`).

Modelling conventions:
- Python's `json.loads` is embedded as an executable recursive-descent
  parser over the decoded characters (`jsonLoads`).  JSON numbers are
  modelled exactly: integer literals as `Int` (Python `int`), other
  numeric literals as `ℚ` (the exact value of the decimal literal;
  binary floating point rounding is abstracted away).  The Python
  extensions `NaN`/`Infinity` and lone surrogates in `\u` escapes are
  outside the model (they cannot be represented by `ℚ`/`Char`).
- `bytes.decode()` (strict UTF-8) is embedded as `utf8Decode`, which
  rejects exactly the byte sequences CPython rejects: continuation-byte
  leads, overlong encodings, surrogates, values above U+10FFFF and
  truncated sequences.
- The store is a state (`DBState`): the `location_data` schema (present
  or absent), the committed rows, the next SERIAL value and a logical
  clock supplying `created_at`.  The `DECIMAL(p, 8)` columns round the
  stored value to scale 8, half away from zero, and raise a
  numeric-field-overflow error when the rounded value exceeds the
  precision (latitude `DECIMAL(10, 8)` needs `|v| < 100`, longitude
  `DECIMAL(11, 8)` needs `|v| < 1000`); `NOT NULL` constraints and
  argument/column type mismatches are modelled faithfully because the
  ingest path relies on them.  asyncpg argument binding accepts Python
  `int`/`float` for `DECIMAL` columns and `int` within the int64 range
  for `BIGINT` (out-of-range integers raise before reaching the
  server); `None` binds SQL `NULL`.  `bool` arguments are modelled as
  binding errors.
- HTTP responses carry the status code of the corresponding FastAPI
  branch: `ok` is a 200 with the `dict(row)` body, `httpError s d` is an
  `HTTPException(status_code ≠ 200)` or (for 500) an unhandled exception
  turned into an internal server error by the framework.
-/

/-- JSON values as produced by Python's `json.loads`: `null`, booleans,
`int` for integer literals, exact rationals for other numeric literals,
strings, arrays and objects (key/value lists in source order; duplicate
keys are resolved last-wins at lookup time, as in Python dicts). -/
inductive JVal where
  | null
  | bool (b : Bool)
  | int (n : Int)
  | float (q : ℚ)
  | str (s : String)
  | arr (elems : List JVal)
  | obj (kvs : List (String × JVal))

/-- The double-quote character (written via `Char.ofNat` so that the raw
character does not appear in source). -/
def quoteChar : Char := Char.ofNat 34

/-- The backslash character. -/
def backslashChar : Char := Char.ofNat 92

/-- The opening curly brace character. -/
def lbraceChar : Char := Char.ofNat 123

/-- The closing curly brace character. -/
def rbraceChar : Char := Char.ofNat 125

/-- JSON whitespace characters (space, tab, line feed, carriage return). -/
def isJsonWs (c : Char) : Bool :=
  c = ' ' || c = Char.ofNat 9 || c = Char.ofNat 10 || c = Char.ofNat 13

/-- Drop leading JSON whitespace. -/
def skipWs : List Char → List Char
  | [] => []
  | c :: cs => if isJsonWs c then skipWs cs else c :: cs

/-- Value of a hexadecimal digit, if the character is one. -/
def hexVal (c : Char) : Option Nat :=
  if c.isDigit then some (c.toNat - 48)
  else if 'a' ≤ c ∧ c ≤ 'f' then some (c.toNat - 87)
  else if 'A' ≤ c ∧ c ≤ 'F' then some (c.toNat - 55)
  else none

/-- Split off the maximal leading run of decimal digits. -/
def takeDigits : List Char → List Char × List Char
  | [] => ([], [])
  | c :: cs =>
    if c.isDigit then
      match takeDigits cs with
      | (ds, rest) => (c :: ds, rest)
    else ([], c :: cs)

/-- Numeric value of a digit run. -/
def digitsToNat (ds : List Char) : Nat :=
  ds.foldl (fun a c => a * 10 + (c.toNat - 48)) 0

/-- Parse an optional fraction part `.digits`; returns the fraction
digits (empty when absent) and the remainder. -/
def parseFrac (cs : List Char) : Except Unit (List Char × List Char) :=
  match cs with
  | c :: rest =>
    if c = '.' then
      match takeDigits rest with
      | ([], _) => .error ()
      | (ds, r) => .ok (ds, r)
    else .ok ([], cs)
  | [] => .ok ([], [])

/-- Parse an optional exponent part `[eE][+-]?digits`. -/
def parseExpPart (cs : List Char) : Except Unit (Option Int × List Char) :=
  match cs with
  | c :: rest =>
    if c = 'e' ∨ c = 'E' then
      match rest with
      | c2 :: rest2 =>
        if c2 = '+' then
          match takeDigits rest2 with
          | ([], _) => .error ()
          | (ds, r) => .ok (some (digitsToNat ds : Int), r)
        else if c2 = '-' then
          match takeDigits rest2 with
          | ([], _) => .error ()
          | (ds, r) => .ok (some (-(digitsToNat ds : Int)), r)
        else
          match takeDigits rest with
          | ([], _) => .error ()
          | (ds, r) => .ok (some (digitsToNat ds : Int), r)
      | [] => .error ()
    else .ok (none, cs)
  | [] => .ok (none, [])

/-- Exact rational value of a JSON numeric literal with integer digits
`ds`, fraction digits `fds` and decimal exponent `e`. -/
def jsonNumVal (neg : Bool) (ds fds : List Char) (e : Int) : ℚ :=
  let m : ℚ := (digitsToNat (ds ++ fds) : ℚ) / (10 : ℚ) ^ fds.length
  let s : ℚ := if neg then -1 else 1
  s * m * (10 : ℚ) ^ e

/-- Parse a JSON number starting at `cs` (first char is `-` or a digit).
Integer literals produce `JVal.int` (Python `int`), literals with a
fraction or exponent produce `JVal.float`. -/
def parseNumber (cs : List Char) : Except Unit (JVal × List Char) :=
  let p := match cs with
    | c :: rest => if c = '-' then (true, rest) else (false, cs)
    | [] => (false, ([] : List Char))
  match takeDigits p.2 with
  | ([], _) => .error ()
  | (ds, rest1) =>
    if 1 < ds.length ∧ ds.head? = some '0' then .error ()
    else
      match parseFrac rest1 with
      | .error e => .error e
      | .ok (fds, rest2) =>
        match parseExpPart rest2 with
        | .error e => .error e
        | .ok (none, rest3) =>
          if fds = [] then
            .ok (.int (if p.1 then -(digitsToNat ds : Int) else (digitsToNat ds : Int)), rest3)
          else .ok (.float (jsonNumVal p.1 ds fds 0), rest3)
        | .ok (some e, rest3) => .ok (.float (jsonNumVal p.1 ds fds e), rest3)

/-- Parse the body of a JSON string (the opening quote already consumed),
accumulating characters until the closing quote, with the JSON escape
sequences; `\u` surrogate pairs are combined as Python does. -/
def parseStringBody : Nat → List Char → List Char → Except Unit (String × List Char)
  | 0, _, _ => .error ()
  | _ + 1, [], _ => .error ()
  | fuel + 1, c :: rest, acc =>
    if c = quoteChar then .ok (String.mk acc.reverse, rest)
    else if c = backslashChar then
      match rest with
      | [] => .error ()
      | e :: r =>
        if e = quoteChar then parseStringBody fuel r (quoteChar :: acc)
        else if e = backslashChar then parseStringBody fuel r (backslashChar :: acc)
        else if e = '/' then parseStringBody fuel r ('/' :: acc)
        else if e = 'b' then parseStringBody fuel r (Char.ofNat 8 :: acc)
        else if e = 'f' then parseStringBody fuel r (Char.ofNat 12 :: acc)
        else if e = 'n' then parseStringBody fuel r (Char.ofNat 10 :: acc)
        else if e = 'r' then parseStringBody fuel r (Char.ofNat 13 :: acc)
        else if e = 't' then parseStringBody fuel r (Char.ofNat 9 :: acc)
        else if e = 'u' then
          match r with
          | h1 :: h2 :: h3 :: h4 :: r2 =>
            match hexVal h1, hexVal h2, hexVal h3, hexVal h4 with
            | some a, some b, some cc, some d =>
              let n := ((a * 16 + b) * 16 + cc) * 16 + d
              if n < 0xD800 ∨ 0xE000 ≤ n then
                parseStringBody fuel r2 (Char.ofNat n :: acc)
              else if n < 0xDC00 then
                match r2 with
                | e2 :: u2 :: h5 :: h6 :: h7 :: h8 :: r3 =>
                  if e2 = backslashChar ∧ u2 = 'u' then
                    match hexVal h5, hexVal h6, hexVal h7, hexVal h8 with
                    | some a2, some b2, some c2, some d2 =>
                      let m := ((a2 * 16 + b2) * 16 + c2) * 16 + d2
                      if 0xDC00 ≤ m ∧ m < 0xE000 then
                        parseStringBody fuel r3
                          (Char.ofNat (0x10000 + (n - 0xD800) * 0x400 + (m - 0xDC00)) :: acc)
                      else .error ()
                    | _, _, _, _ => .error ()
                  else .error ()
                | _ => .error ()
              else .error ()
            | _, _, _, _ => .error ()
          | _ => .error ()
        else .error ()
    else if c.toNat < 32 then .error ()
    else parseStringBody fuel rest (c :: acc)

/-- Requests of the JSON recursive-descent parser: a value, the members
of an object (after the opening brace, nonempty), or the elements of an
array (after the opening bracket, nonempty). -/
inductive PReq where
  | val (cs : List Char)
  | members (cs : List Char)
  | elems (cs : List Char)

/-- Results of the JSON recursive-descent parser. -/
inductive PRes where
  | val (j : JVal)
  | members (ms : List (String × JVal))
  | elems (vs : List JVal)

/-- Fuel-indexed JSON parser core (one function so that the recursion is
structural on the fuel and reduces definitionally). -/
def parseCore : Nat → PReq → Except Unit (PRes × List Char)
  | 0, _ => .error ()
  | fuel + 1, .val cs =>
    match skipWs cs with
    | 't' :: 'r' :: 'u' :: 'e' :: rest => .ok (.val (.bool true), rest)
    | 'f' :: 'a' :: 'l' :: 's' :: 'e' :: rest => .ok (.val (.bool false), rest)
    | 'n' :: 'u' :: 'l' :: 'l' :: rest => .ok (.val .null, rest)
    | c :: rest =>
      if c = lbraceChar then
        match skipWs rest with
        | c2 :: rest2 =>
          if c2 = rbraceChar then .ok (.val (.obj []), rest2)
          else
            match parseCore fuel (.members (c2 :: rest2)) with
            | .ok (.members ms, r) => .ok (.val (.obj ms), r)
            | _ => .error ()
        | [] => .error ()
      else if c = '[' then
        match skipWs rest with
        | c2 :: rest2 =>
          if c2 = ']' then .ok (.val (.arr []), rest2)
          else
            match parseCore fuel (.elems (c2 :: rest2)) with
            | .ok (.elems vs, r) => .ok (.val (.arr vs), r)
            | _ => .error ()
        | [] => .error ()
      else if c = quoteChar then
        match parseStringBody (rest.length + 1) rest [] with
        | .ok (s, r) => .ok (.val (.str s), r)
        | .error e => .error e
      else if c = '-' ∨ c.isDigit then
        match parseNumber (c :: rest) with
        | .ok (j, r) => .ok (.val j, r)
        | .error e => .error e
      else .error ()
    | [] => .error ()
  | fuel + 1, .members cs =>
    match skipWs cs with
    | c :: rest =>
      if c = quoteChar then
        match parseStringBody (rest.length + 1) rest [] with
        | .error e => .error e
        | .ok (k, r1) =>
          match skipWs r1 with
          | c2 :: r2 =>
            if c2 = ':' then
              match parseCore fuel (.val r2) with
              | .ok (.val v, r3) =>
                (match skipWs r3 with
                 | c3 :: r4 =>
                   if c3 = ',' then
                     match parseCore fuel (.members r4) with
                     | .ok (.members ms, r5) => .ok (.members ((k, v) :: ms), r5)
                     | _ => .error ()
                   else if c3 = rbraceChar then .ok (.members [(k, v)], r4)
                   else .error ()
                 | [] => .error ())
              | _ => .error ()
            else .error ()
          | [] => .error ()
      else .error ()
    | [] => .error ()
  | fuel + 1, .elems cs =>
    match parseCore fuel (.val cs) with
    | .ok (.val v, r1) =>
      (match skipWs r1 with
       | c :: r2 =>
         if c = ',' then
           match parseCore fuel (.elems r2) with
           | .ok (.elems vs, r3) => .ok (.elems (v :: vs), r3)
           | _ => .error ()
         else if c = ']' then .ok (.elems [v], r2)
         else .error ()
       | [] => .error ())
    | .ok _ => .error ()
    | .error e => .error e

/-- Embedding of Python's `json.loads`: parse one JSON value and require
only trailing whitespace after it.  `Except.error ()` is
`json.JSONDecodeError`. -/
def jsonLoads (s : String) : Except Unit JVal :=
  match parseCore (2 * s.length + 2) (.val s.data) with
  | .ok (.val j, rest) => if skipWs rest = [] then .ok j else .error ()
  | _ => .error ()

/-- Fuel-indexed strict UTF-8 decoder over the raw datagram bytes,
accumulating decoded characters in reverse. -/
def utf8DecodeAux : Nat → List Nat → List Char → Option (List Char)
  | 0, _, _ => none
  | _ + 1, [], acc => some acc.reverse
  | fuel + 1, b1 :: rest, acc =>
    if 0xFF < b1 then none
    else if b1 < 0x80 then utf8DecodeAux fuel rest (Char.ofNat b1 :: acc)
    else if b1 < 0xC2 then none
    else if b1 < 0xE0 then
      match rest with
      | b2 :: r2 =>
        if 0x80 ≤ b2 ∧ b2 < 0xC0 then
          utf8DecodeAux fuel r2 (Char.ofNat ((b1 - 0xC0) * 0x40 + (b2 - 0x80)) :: acc)
        else none
      | [] => none
    else if b1 < 0xF0 then
      match rest with
      | b2 :: b3 :: r3 =>
        if (0x80 ≤ b2 ∧ b2 < 0xC0) ∧ (0x80 ≤ b3 ∧ b3 < 0xC0) ∧
            (b1 ≠ 0xE0 ∨ 0xA0 ≤ b2) ∧ (b1 ≠ 0xED ∨ b2 < 0xA0) then
          utf8DecodeAux fuel r3
            (Char.ofNat ((b1 - 0xE0) * 0x1000 + (b2 - 0x80) * 0x40 + (b3 - 0x80)) :: acc)
        else none
      | _ => none
    else if b1 < 0xF5 then
      match rest with
      | b2 :: b3 :: b4 :: r4 =>
        if (0x80 ≤ b2 ∧ b2 < 0xC0) ∧ (0x80 ≤ b3 ∧ b3 < 0xC0) ∧ (0x80 ≤ b4 ∧ b4 < 0xC0) ∧
            (b1 ≠ 0xF0 ∨ 0x90 ≤ b2) ∧ (b1 ≠ 0xF4 ∨ b2 < 0x90) then
          utf8DecodeAux fuel r4
            (Char.ofNat ((b1 - 0xF0) * 0x40000 + (b2 - 0x80) * 0x1000 +
              (b3 - 0x80) * 0x40 + (b4 - 0x80)) :: acc)
        else none
      | _ => none
    else none

/-- Embedding of Python's `bytes.decode()` (strict UTF-8): `none` is a
raised `UnicodeDecodeError`. -/
def utf8Decode (bs : List Nat) : Option String :=
  (utf8DecodeAux (bs.length + 1) bs []).map String.mk

/-- SQL column types occurring in the `location_data` DDL. -/
inductive SqlType where
  | serial
  | decimal (precision scale : Nat)
  | bigint
  | varchar (n : Nat)
  | timestamp
deriving DecidableEq

/-- One column of a SQL table definition. -/
structure ColumnDef where
  name : String
  dtype : SqlType
  notNull : Bool
  primaryKey : Bool
  defaultCurrentTimestamp : Bool
deriving DecidableEq

/-- The columns of `CREATE TABLE IF NOT EXISTS location_data (...)` in
`create_location_table`, in DDL order.  `SERIAL PRIMARY KEY` is not null
by definition. -/
def location_data_columns : List ColumnDef :=
  [⟨"id", .serial, true, true, false⟩,
   ⟨"latitude", .decimal 10 8, true, false, false⟩,
   ⟨"longitude", .decimal 11 8, true, false, false⟩,
   ⟨"timestamp_value", .bigint, true, false, false⟩,
   ⟨"accuracy", .decimal 8 2, false, false, false⟩,
   ⟨"altitude", .decimal 8 2, false, false, false⟩,
   ⟨"speed", .decimal 8 2, false, false, false⟩,
   ⟨"provider", .varchar 50, false, false, false⟩,
   ⟨"created_at", .timestamp, false, false, true⟩]

/-- A committed row of `location_data`.  `id` is the SERIAL key,
`created_at` the server-assigned insertion timestamp; the four reserved
columns are nullable. -/
structure LocRow where
  id : Nat
  latitude : ℚ
  longitude : ℚ
  timestamp_value : Int
  accuracy : Option ℚ
  altitude : Option ℚ
  speed : Option ℚ
  provider : Option String
  created_at : Nat
deriving DecidableEq

/-- State of the PostgreSQL store: the `location_data` schema (absent
until created), the committed rows in commit order, the next SERIAL
value, and a logical clock supplying `CURRENT_TIMESTAMP`. -/
structure DBState where
  schema : Option (List ColumnDef)
  rows : List LocRow
  nextId : Nat
  clock : Nat
deriving DecidableEq

/-- A store with no `location_data` table yet. -/
def dbEmpty : DBState := { schema := none, rows := [], nextId := 1, clock := 0 }

/-- Embedding of `create_location_table`: executes
`CREATE TABLE IF NOT EXISTS location_data (...)` — creates the (empty)
table with its SERIAL sequence when absent, and is a no-op when the
table already exists. -/
def create_location_table (st : DBState) : DBState :=
  match st.schema with
  | some _ => st
  | none => { st with schema := some location_data_columns, rows := [], nextId := 1 }

/-- A store on which `create_location_table` has run: empty table, fresh
SERIAL sequence. -/
def dbReady : DBState := create_location_table dbEmpty

/-- Round a rational half away from zero, as PostgreSQL rounds numeric
values. -/
def roundHalfAway (q : ℚ) : Int :=
  if q < 0 then -((-q + 1 / 2).floor) else (q + 1 / 2).floor

/-- PostgreSQL storage into a `DECIMAL(p, 8)` column rounds the value to
scale 8, half away from zero. -/
def pgRound8 (q : ℚ) : ℚ :=
  (roundHalfAway (q * 10 ^ 8) : ℚ) / 10 ^ 8

/-- The int64 range of `BIGINT` arguments: asyncpg raises for integers
outside it before the query reaches the server. -/
def inInt64 (n : Int) : Bool :=
  decide (-(2 ^ 63) ≤ n) && decide (n < 2 ^ 63)

/-- Errors surfaced by the store on insert: querying a missing table,
binding a Python argument of the wrong type for the column, a
`NOT NULL` constraint violation, a numeric field overflow on a
`DECIMAL` column, or a `BIGINT` argument outside int64.  All are raised
as exceptions by asyncpg and reach the caller's `except` clauses. -/
inductive DBErr where
  | undefinedTable
  | typeMismatch
  | notNullViolation
  | numericOverflow
  | outOfRange
deriving DecidableEq

/-- asyncpg binding of a Python argument (the result of `data.get(k)`,
`none` when the key is absent) against a `DECIMAL` column: `None`/JSON
null bind SQL `NULL`, `int` and `float` bind their numeric value, all
other Python values are a type error. -/
def bindDecimal : Option JVal → Except DBErr (Option ℚ)
  | none => .ok none
  | some .null => .ok none
  | some (.int n) => .ok (some (n : ℚ))
  | some (.float q) => .ok (some q)
  | some _ => .error .typeMismatch

/-- asyncpg binding of a Python argument against a `BIGINT` column:
`None`/JSON null bind SQL `NULL`, an `int` within int64 binds its
value, an `int` outside int64 raises in the encoder, everything else is
a type error. -/
def bindBigint : Option JVal → Except DBErr (Option Int)
  | none => .ok none
  | some .null => .ok none
  | some (.int n) => if inInt64 n then .ok (some n) else .error .outOfRange
  | some _ => .error .typeMismatch

/-- Embedding of the insert statement of `insert_location_data`:
`INSERT INTO location_data (latitude, longitude, timestamp_value,
accuracy, altitude, speed, provider) VALUES ($1, $2, $3, NULL, NULL,
NULL, NULL) RETURNING id;` with arguments `data.get("lat")`,
`data.get("lon")`, `data.get("time")`.  The four reserved columns are
written NULL unconditionally; `latitude`, `longitude` and
`timestamp_value` are `NOT NULL`, so a missing or null argument is a
constraint violation and commits nothing.  The `DECIMAL(10, 8)` and
`DECIMAL(11, 8)` columns store the value rounded to scale 8 (half away
from zero) and the server raises a numeric field overflow when the
rounded value does not fit the precision (two integer digits for
latitude, three for longitude). -/
def dbInsert (st : DBState) (lat lon time : Option JVal) : Except DBErr (DBState × Nat) :=
  match st.schema with
  | none => .error .undefinedTable
  | some _ =>
    match bindDecimal lat with
    | .error e => .error e
    | .ok laOpt =>
      match bindDecimal lon with
      | .error e => .error e
      | .ok loOpt =>
        match bindBigint time with
        | .error e => .error e
        | .ok tOpt =>
          match laOpt, loOpt, tOpt with
          | some la, some lo, some t =>
            if |pgRound8 la| < 100 ∧ |pgRound8 lo| < 1000 then
              .ok ({ st with
                      rows := st.rows ++
                        [⟨st.nextId, pgRound8 la, pgRound8 lo, t,
                          none, none, none, none, st.clock⟩],
                      nextId := st.nextId + 1,
                      clock := st.clock + 1 },
                   st.nextId)
            else .error .numericOverflow
          | _, _, _ => .error .notNullViolation

/-- `ORDER BY id DESC`: sort the committed rows by descending `id`. -/
instance : DecidableRel (fun a b : LocRow => b.id ≤ a.id) :=
  fun a b => Nat.decLe b.id a.id

/-- The row list as returned by `ORDER BY id DESC`. -/
def sortByIdDesc (l : List LocRow) : List LocRow :=
  l.insertionSort (fun a b => b.id ≤ a.id)

/-- Strict ascending order on row ids is decidable (used to evaluate the
store invariant on concrete states). -/
instance : DecidableRel (fun a b : LocRow => a.id < b.id) :=
  fun a b => Nat.decLt a.id b.id

/-- Values appearing in a `dict(row)` HTTP response body. -/
inductive ColVal where
  | null
  | num (q : ℚ)
  | int (n : Int)
  | str (s : String)
  | timestamp (t : Nat)
deriving DecidableEq

/-- The `dict(result)` body built by `get_latest_location` from
`SELECT latitude, longitude, timestamp_value, created_at`. -/
def rowToDictLatest (r : LocRow) : List (String × ColVal) :=
  [("latitude", .num r.latitude),
   ("longitude", .num r.longitude),
   ("timestamp_value", .int r.timestamp_value),
   ("created_at", .timestamp r.created_at)]

/-- A nullable `DECIMAL` column value in a `SELECT *` row dict. -/
def optDecimal : Option ℚ → ColVal
  | none => .null
  | some q => .num q

/-- A nullable `VARCHAR` column value in a `SELECT *` row dict. -/
def optVarchar : Option String → ColVal
  | none => .null
  | some s => .str s

/-- The `dict(row)` body built by `get_all_locations` from
`SELECT * FROM location_data`, with every column of the table. -/
def rowToDictAll (r : LocRow) : List (String × ColVal) :=
  [("id", .int (r.id : Int)),
   ("latitude", .num r.latitude),
   ("longitude", .num r.longitude),
   ("timestamp_value", .int r.timestamp_value),
   ("accuracy", optDecimal r.accuracy),
   ("altitude", optDecimal r.altitude),
   ("speed", optDecimal r.speed),
   ("provider", optVarchar r.provider),
   ("created_at", .timestamp r.created_at)]

/-- Response of `GET /api/location/latest`: `ok` is HTTP 200 with the
`dict(result)` body; `httpError` carries the status and detail of an
`HTTPException` (404, 503) or 500 for an exception the endpoint does not
catch (e.g. querying a table that was never created). -/
inductive LatestResponse where
  | ok (body : List (String × ColVal))
  | httpError (status : Nat) (detail : String)
deriving DecidableEq

/-- Response of `GET /api/location/all`. -/
inductive AllResponse where
  | ok (body : List (List (String × ColVal)))
  | httpError (status : Nat) (detail : String)
deriving DecidableEq

/-- Embedding of the `get_latest_location` endpoint: 503 when the global
`db_pool` is `None`; otherwise `SELECT latitude, longitude,
timestamp_value, created_at FROM location_data ORDER BY id DESC LIMIT 1`
— 404 when no row exists, else 200 with the row dict.  A missing table
raises out of the handler (500). -/
def get_latest_location (hasPool : Bool) (st : DBState) : LatestResponse :=
  if hasPool then
    match st.schema with
    | none => .httpError 500 "Internal Server Error"
    | some _ =>
      match (sortByIdDesc st.rows).head? with
      | none => .httpError 404 "No hay datos disponibles"
      | some r => .ok (rowToDictLatest r)
  else .httpError 503 "Servicio no disponible (sin conexion a BD)"

/-- Embedding of the `get_all_locations` endpoint: 503 when the global
`db_pool` is `None`; otherwise `SELECT * FROM location_data ORDER BY id
DESC LIMIT $1` with the caller-supplied `limit` passed through unchanged.
PostgreSQL rejects a negative LIMIT, and that exception is not caught by
the endpoint (500); a missing table likewise raises (500). -/
def get_all_locations (hasPool : Bool) (st : DBState) (limit : Int) : AllResponse :=
  if hasPool then
    match st.schema with
    | none => .httpError 500 "Internal Server Error"
    | some _ =>
      if limit < 0 then .httpError 500 "Internal Server Error"
      else .ok (((sortByIdDesc st.rows).take limit.toNat).map rowToDictAll)
  else .httpError 503 "Servicio no disponible (sin conexion a BD)"

/-- `get_all_locations` as called with no `limit` query parameter: the
FastAPI signature `limit: int = 100` supplies the default 100. -/
def get_all_locations_default (hasPool : Bool) (st : DBState) : AllResponse :=
  get_all_locations hasPool st 100

/-- Python `dict` lookup on the key/value list produced by `json.loads`
(duplicate keys: last occurrence wins, as when Python builds the dict). -/
def lookupLast (kvs : List (String × JVal)) (k : String) : Option JVal :=
  match kvs with
  | [] => none
  | (k', v) :: rest =>
    match lookupLast rest k with
    | some w => some w
    | none => if k' = k then some v else none

/-- Embedding of Python's `data.get(k)`: defined on dicts, raises
`AttributeError` (`Except.error`) on any other `json.loads` result. -/
def pyGet (j : JVal) (k : String) : Except Unit (Option JVal) :=
  match j with
  | .obj kvs => .ok (lookupLast kvs k)
  | _ => .error ()

/-- The tuple `values = (data.get("lat"), data.get("lon"),
data.get("time"))` of `insert_location_data`, evaluated left to right;
an `AttributeError` on a non-dict payload propagates. -/
def pyGetValues (j : JVal) : Except Unit (Option JVal × Option JVal × Option JVal) :=
  match pyGet j "lat" with
  | .error e => .error e
  | .ok la =>
    match pyGet j "lon" with
    | .error e => .error e
    | .ok lo =>
      match pyGet j "time" with
      | .error e => .error e
      | .ok t => .ok (la, lo, t)

/-- Outcome of one `insert_location_data` task, mirroring its logged
branches: pool missing, row inserted with its id, `json.JSONDecodeError`
caught (logged warning), or any other exception caught by the generic
`except Exception` (logged warning). -/
inductive InsertOutcome where
  | noPool
  | inserted (id : Nat)
  | invalidJson
  | processingError
deriving DecidableEq

/-- The body of `insert_location_data` after JSON decoding: build the
argument tuple and run the insert; `AttributeError` and store errors are
caught by `except Exception` and leave the store unchanged. -/
def processPayload (st : DBState) (data : JVal) : DBState × InsertOutcome :=
  match pyGetValues data with
  | .error _ => (st, .processingError)
  | .ok (la, lo, t) =>
    match dbInsert st la lo t with
    | .error _ => (st, .processingError)
    | .ok (st', newId) => (st', .inserted newId)

/-- Embedding of `UDPServerProtocol.insert_location_data`: return at once
when the global pool is `None`; otherwise `json.loads` the message —
`json.JSONDecodeError` is caught and logged, every other exception is
caught by the generic handler.  No failure path commits a row or
escapes the task. -/
def insert_location_data (hasPool : Bool) (st : DBState) (message : String) :
    DBState × InsertOutcome :=
  if hasPool then
    match jsonLoads message with
    | .error _ => (st, .invalidJson)
    | .ok data => processPayload st data
  else (st, .noPool)

/-- Embedding of `UDPServerProtocol.datagram_received`: `data.decode()`
is not inside any try/except, so a `UnicodeDecodeError` propagates out
of the callback (`Except.error`); on success the decoded message is
handed to `asyncio.create_task(self.insert_location_data(message))`. -/
def datagram_received (data : List Nat) : Except Unit String :=
  match utf8Decode data with
  | none => .error ()
  | some s => .ok s

/-- What the event loop observes for one datagram: either the callback
raised (asyncio catches the exception in `Handle._run`, logs it through
the loop exception handler, and keeps the transport open), or the
dispatched task finished with the given outcome. -/
inductive HandleOutcome where
  | raised
  | task (o : InsertOutcome)
deriving DecidableEq

/-- One datagram as processed by the event loop: run the receive
callback, contain a raised exception, and otherwise run the dispatched
insert task to completion. -/
def handleDatagram (hasPool : Bool) (st : DBState) (d : List Nat) :
    DBState × HandleOutcome :=
  match datagram_received d with
  | .error _ => (st, .raised)
  | .ok msg =>
    ((insert_location_data hasPool st msg).1, .task (insert_location_data hasPool st msg).2)

/-- The receive loop over a sequence of datagrams: the listener keeps
accepting messages whatever each datagram's outcome was. -/
def processDatagrams (hasPool : Bool) (st : DBState) : List (List Nat) → DBState
  | [] => st
  | d :: ds => processDatagrams hasPool (handleDatagram hasPool st d).1 ds

/-- Embedding of `create_db_pool`: `asyncpg.create_pool` inside
`try/except Exception` — returns the pool, or `None` when the store is
unreachable (no exception ever escapes). -/
def create_db_pool (storeReachable : Bool) : Option Unit :=
  if storeReachable then some () else none

/-- Application state after startup: the global `db_pool` (as a presence
flag) and the store. -/
structure AppState where
  db_pool : Bool
  db : DBState
deriving DecidableEq

/-- Embedding of the startup half of `lifespan`: create the pool; only
when that succeeded, run `create_location_table`; in either case the
function returns and the application (HTTP API and UDP listener) starts.
A `None` pool is degraded mode. -/
def lifespan_startup (storeReachable : Bool) (db : DBState) : AppState :=
  match create_db_pool storeReachable with
  | some _ => { db_pool := true, db := create_location_table db }
  | none => { db_pool := false, db := db }

/-- Numeric value of a JSON value, when it has one. -/
def asDecimal : JVal → Option ℚ
  | .int n => some (n : ℚ)
  | .float q => some q
  | _ => none

/-- Integer value of a JSON value, when it is an integer. -/
def asBigint : JVal → Option Int
  | .int n => some n
  | _ => none

/-- A `data.get` result that stores into a `DECIMAL(p, 8)` column whose
precision allows integer parts below `bound`: a JSON number whose
scale-8 rounding fits. -/
def decimalOk (bound : ℚ) (o : Option JVal) : Bool :=
  match o.bind asDecimal with
  | some q => decide (|pgRound8 q| < bound)
  | none => false

/-- A `data.get` result that stores into the `BIGINT` column: a JSON
integer within int64. -/
def bigintOk (o : Option JVal) : Bool :=
  match o.bind asBigint with
  | some n => inInt64 n
  | none => false

/-- A decoded payload the insert path stores: a JSON object whose `lat`
and `lon` are numbers fitting `DECIMAL(10, 8)` / `DECIMAL(11, 8)` after
scale-8 rounding and whose `time` is an int64 integer — exactly the
payloads whose insert satisfies the column types, the NOT NULL
constraints, the DECIMAL precision and the BIGINT range. -/
def wellFormedPayload : JVal → Bool
  | .obj kvs =>
    decimalOk 100 (lookupLast kvs "lat") && decimalOk 1000 (lookupLast kvs "lon") &&
      bigintOk (lookupLast kvs "time")
  | _ => false

/-- A message string that decodes to a well-formed payload. -/
def wellFormedMessage (m : String) : Bool :=
  match jsonLoads m with
  | .ok j => wellFormedPayload j
  | .error _ => false

/-- A datagram that is malformed in the sense of the spec: bytes that
fail UTF-8 decoding, text that fails JSON decoding, or decoded JSON of a
shape the store rejects. -/
def malformedDatagram (d : List Nat) : Bool :=
  match utf8Decode d with
  | none => true
  | some m => !(wellFormedMessage m)

/-- The row committed by a successful insert on state `st`: SERIAL id,
the three bound values, NULL reserved columns, `created_at` from the
server clock. -/
def mkInsertedRow (st : DBState) (la lo : ℚ) (t : Int) : LocRow :=
  ⟨st.nextId, la, lo, t, none, none, none, none, st.clock⟩

/-- The store state after a successful insert on `st`. -/
def afterInsert (st : DBState) (la lo : ℚ) (t : Int) : DBState :=
  { st with rows := st.rows ++ [mkInsertedRow st la lo t],
            nextId := st.nextId + 1, clock := st.clock + 1 }

/-- A `data.get` result that binds SQL `NULL`: the key was absent
(Python `None`) or its value was JSON null. -/
def missingOrNull : Option JVal → Bool
  | none => true
  | some .null => true
  | _ => false

/-- Store invariant maintained by the embedding: row ids are strictly
increasing in commit order and below the next SERIAL value. -/
def DBInv (st : DBState) : Prop :=
  st.rows.Pairwise (fun a b => a.id < b.id) ∧ ∀ r ∈ st.rows, r.id < st.nextId

/-- A well-formed ingest message (concrete test vector). -/
def msgFull : String := "\x7b\"lat\": 1, \"lon\": 2, \"time\": 3\x7d"

/-- A decoded-JSON-object message with `time` absent. -/
def msgMissingTime : String := "\x7b\"lat\": 1, \"lon\": 2\x7d"

/-- A well-formed message whose latitude carries 9 decimal places, one
more than the `DECIMAL(10, 8)` scale. -/
def msgRound : String := "\x7b\"lat\": 1.000000001, \"lon\": 2, \"time\": 3\x7d"

/-- A decoded payload carrying an extra, unrecognized key. -/
def payloadExtra : List (String × JVal) :=
  [("lat", .int 1), ("lon", .int 2), ("time", .int 3), ("battery", .bool true)]

/-- The same payload without the extra key. -/
def payloadPlain : List (String × JVal) :=
  [("lat", .int 1), ("lon", .int 2), ("time", .int 3)]

/-- The store after ingesting `msgFull` into a freshly created table. -/
def dbOneRow : DBState := (insert_location_data true dbReady msgFull).1

/-- The `latest` response body after ingesting `msgFull` into a fresh
table. -/
def latestBodyOne : List (String × ColVal) :=
  [("latitude", .num 1), ("longitude", .num 2),
   ("timestamp_value", .int 3), ("created_at", .timestamp 0)]

lemma bindDecimal_of_bind {o : Option JVal} {q : ℚ} (h : o.bind asDecimal = some q) :
    bindDecimal o = .ok (some q) := by
  cases o with
  | none => simp at h
  | some v => cases v <;> simp_all [asDecimal, bindDecimal]

lemma bindBigint_of_bind {o : Option JVal} {n : Int} (h : o.bind asBigint = some n)
    (hr : inInt64 n = true) : bindBigint o = .ok (some n) := by
  cases o with
  | none => simp at h
  | some v => cases v <;> simp_all [asBigint, bindBigint]

lemma bind_of_bindDecimal {o : Option JVal} {q : ℚ} (h : bindDecimal o = .ok (some q)) :
    o.bind asDecimal = some q := by
  cases o with
  | none => simp [bindDecimal] at h
  | some v => cases v <;> simp_all [asDecimal, bindDecimal]

lemma bind_of_bindBigint {o : Option JVal} {n : Int} (h : bindBigint o = .ok (some n)) :
    o.bind asBigint = some n ∧ inInt64 n = true := by
  cases o with
  | none => simp [bindBigint] at h
  | some v =>
    cases v with
    | int m =>
      by_cases hm : inInt64 m = true
      · simp [bindBigint, hm] at h
        subst h
        exact ⟨rfl, hm⟩
      · simp [bindBigint, hm] at h
    | null => simp [bindBigint] at h
    | bool b => simp [bindBigint] at h
    | float q => simp [bindBigint] at h
    | str s => simp [bindBigint] at h
    | arr l => simp [bindBigint] at h
    | obj kvs => simp [bindBigint] at h

lemma missingOrNull_bind_none {o : Option JVal} (h : missingOrNull o = true) :
    o.bind asDecimal = none ∧ o.bind asBigint = none := by
  cases o with
  | none => simp
  | some v => cases v <;> simp_all [missingOrNull, asDecimal, asBigint]

lemma dbInsert_ok_of_binds (st : DBState) (la lo t : Option JVal) (qa qo : ℚ) (qt : Int)
    (s : List ColumnDef) (hs : st.schema = some s)
    (ha : la.bind asDecimal = some qa) (ho : lo.bind asDecimal = some qo)
    (ht : t.bind asBigint = some qt) (hra : |pgRound8 qa| < 100)
    (hro : |pgRound8 qo| < 1000) (hrt : inInt64 qt = true) :
    dbInsert st la lo t =
      .ok (afterInsert st (pgRound8 qa) (pgRound8 qo) qt, st.nextId) := by
  simp [dbInsert, hs, bindDecimal_of_bind ha, bindDecimal_of_bind ho,
    bindBigint_of_bind ht hrt, afterInsert, mkInsertedRow, hra, hro]

lemma dbInsert_ok_inv (st : DBState) (la lo t : Option JVal) (x : DBState × Nat)
    (h : dbInsert st la lo t = .ok x) :
    ∃ qa qo qt, la.bind asDecimal = some qa ∧ lo.bind asDecimal = some qo ∧
      t.bind asBigint = some qt ∧ |pgRound8 qa| < 100 ∧ |pgRound8 qo| < 1000 ∧
      inInt64 qt = true ∧
      x = (afterInsert st (pgRound8 qa) (pgRound8 qo) qt, st.nextId) := by
  cases hs : st.schema with
  | none => simp [dbInsert, hs] at h
  | some s =>
    cases hla : bindDecimal la with
    | error e => simp [dbInsert, hs, hla] at h
    | ok laOpt =>
      cases hlo : bindDecimal lo with
      | error e => simp [dbInsert, hs, hla, hlo] at h
      | ok loOpt =>
        cases hti : bindBigint t with
        | error e => simp [dbInsert, hs, hla, hlo, hti] at h
        | ok tOpt =>
          cases laOpt with
          | none => simp [dbInsert, hs, hla, hlo, hti] at h
          | some qa =>
            cases loOpt with
            | none => simp [dbInsert, hs, hla, hlo, hti] at h
            | some qo =>
              cases tOpt with
              | none => simp [dbInsert, hs, hla, hlo, hti] at h
              | some qt =>
                by_cases hr : |pgRound8 qa| < 100 ∧ |pgRound8 qo| < 1000
                · have heq : dbInsert st la lo t =
                      .ok (afterInsert st (pgRound8 qa) (pgRound8 qo) qt, st.nextId) := by
                    simp [dbInsert, hs, hla, hlo, hti, afterInsert, mkInsertedRow,
                      hr.1, hr.2]
                  obtain ⟨hb, hbr⟩ := bind_of_bindBigint hti
                  exact ⟨qa, qo, qt, bind_of_bindDecimal hla, bind_of_bindDecimal hlo,
                    hb, hr.1, hr.2, hbr, (Except.ok.inj (heq.symm.trans h)).symm⟩
                · have heq : dbInsert st la lo t = .error .numericOverflow := by
                    simp [dbInsert, hs, hla, hlo, hti, hr]
                  rw [heq] at h
                  cases h

lemma processPayload_wf (st : DBState) (kvs : List (String × JVal)) (la lo : ℚ) (t : Int)
    (s : List ColumnDef) (hs : st.schema = some s)
    (hla : (lookupLast kvs "lat").bind asDecimal = some la)
    (hlo : (lookupLast kvs "lon").bind asDecimal = some lo)
    (ht : (lookupLast kvs "time").bind asBigint = some t)
    (hra : |pgRound8 la| < 100) (hro : |pgRound8 lo| < 1000)
    (hrt : inInt64 t = true) :
    processPayload st (.obj kvs) =
      (afterInsert st (pgRound8 la) (pgRound8 lo) t, .inserted st.nextId) := by
  simp [processPayload, pyGetValues, pyGet,
    dbInsert_ok_of_binds st _ _ _ la lo t s hs hla hlo ht hra hro hrt]

lemma processPayload_not_wf (st : DBState) (j : JVal) (h : wellFormedPayload j = false) :
    processPayload st j = (st, .processingError) := by
  cases j with
  | null => rfl
  | bool b => rfl
  | int n => rfl
  | float q => rfl
  | str s => rfl
  | arr l => rfl
  | obj kvs =>
    cases hdb : dbInsert st (lookupLast kvs "lat") (lookupLast kvs "lon")
        (lookupLast kvs "time") with
    | error e => simp [processPayload, pyGetValues, pyGet, hdb]
    | ok x =>
      obtain ⟨qa, qo, qt, ha, ho, htt, hra, hro, hrt, -⟩ :=
        dbInsert_ok_inv st _ _ _ x hdb
      have hw : wellFormedPayload (JVal.obj kvs) = true := by
        simp [wellFormedPayload, decimalOk, bigintOk, ha, ho, htt, hra, hro, hrt]
      rw [hw] at h
      cases h

lemma insert_not_wf (b : Bool) (st : DBState) (m : String) (h : wellFormedMessage m = false) :
    (insert_location_data b st m).1 = st ∧
      (b = true → (insert_location_data true st m).2 = .invalidJson ∨
        (insert_location_data true st m).2 = .processingError) := by
  cases b with
  | false => exact ⟨rfl, fun hb => by cases hb⟩
  | true =>
    cases hj : jsonLoads m with
    | error e =>
      refine ⟨by simp [insert_location_data, hj], fun _ => Or.inl ?_⟩
      simp [insert_location_data, hj]
    | ok j =>
      have hw : wellFormedPayload j = false := by simpa [wellFormedMessage, hj] using h
      have hp := processPayload_not_wf st j hw
      refine ⟨by simp [insert_location_data, hj, hp], fun _ => Or.inr ?_⟩
      simp [insert_location_data, hj, hp]

lemma orderedInsert_of_forall_lt (a : LocRow) (m : List LocRow)
    (h : ∀ b ∈ m, a.id < b.id) :
    List.orderedInsert (fun x y => y.id ≤ x.id) a m = m ++ [a] := by
  induction m with
  | nil => simp
  | cons b m' ih =>
    have hb : ¬ (b.id ≤ a.id) := Nat.not_le.mpr (h b (List.mem_cons_self b m'))
    simp only [List.orderedInsert, if_neg hb, List.cons_append, List.cons.injEq, true_and]
    exact ih (fun c hc => h c (List.mem_cons_of_mem b hc))

lemma sortByIdDesc_eq_reverse (l : List LocRow)
    (h : l.Pairwise (fun a b => a.id < b.id)) : sortByIdDesc l = l.reverse := by
  induction l with
  | nil => rfl
  | cons a t ih =>
    rw [List.pairwise_cons] at h
    show List.orderedInsert _ a (List.insertionSort _ t) = (a :: t).reverse
    rw [show List.insertionSort (fun x y : LocRow => y.id ≤ x.id) t = sortByIdDesc t from rfl,
      ih h.2, orderedInsert_of_forall_lt a t.reverse
        (fun b hb => h.1 b (List.mem_reverse.mp hb))]
    simp

lemma DBInv_afterInsert (st : DBState) (la lo : ℚ) (t : Int) (h : DBInv st) :
    DBInv (afterInsert st la lo t) := by
  obtain ⟨hs, hb⟩ := h
  constructor
  · refine List.pairwise_append.mpr ⟨hs, List.pairwise_singleton _ _, ?_⟩
    intro x hx y hy
    have hy' : y = mkInsertedRow st la lo t := by simpa using hy
    rw [hy']
    exact hb x hx
  · intro r hr
    rcases List.mem_append.mp hr with h1 | h2
    · exact Nat.lt_succ_of_lt (hb r h1)
    · have : r = mkInsertedRow st la lo t := by simpa using h2
      rw [this]
      exact Nat.lt_succ_self _

lemma dbReady_schema : dbReady.schema = some location_data_columns := rfl

lemma dbReady_inv : DBInv dbReady := by
  constructor
  · exact List.Pairwise.nil
  · intro r hr
    cases hr

/-- C1 (corrected): for a malformed datagram (bytes failing UTF-8
decoding, text failing JSON decoding, or decoded JSON of a shape the
store rejects) no row is ever inserted — the store state is unchanged —
and the listener continues with the subsequent datagrams; but the two
failure modes are handled differently: a UTF-8 decoding failure raises
`UnicodeDecodeError` out of `datagram_received` itself (it is contained
and logged by the event loop, not by application code, since
`data.decode()` is outside any try/except), while JSON-decoding and
shape failures are caught inside the dispatched task with a logged
warning and never raise. -/
theorem C1_malformed_discarded (b : Bool) (st : DBState) (d : List Nat)
    (rest : List (List Nat)) (hmal : malformedDatagram d = true) :
    (handleDatagram b st d).1 = st ∧
      processDatagrams b st (d :: rest) = processDatagrams b st rest ∧
      (utf8Decode d = none → (handleDatagram b st d).2 = .raised) ∧
      (∀ m, utf8Decode d = some m →
        (handleDatagram b st d).2 = .task (insert_location_data b st m).2 ∧
        (b = true → (insert_location_data true st m).2 = .invalidJson ∨
          (insert_location_data true st m).2 = .processingError)) := by
  cases hd : utf8Decode d with
  | none =>
    have hh : handleDatagram b st d = (st, .raised) := by
      simp [handleDatagram, datagram_received, hd]
    refine ⟨by rw [hh], ?_, fun _ => by rw [hh], fun m hm => by cases hm⟩
    simp only [processDatagrams, hh]
  | some m0 =>
    have hw : wellFormedMessage m0 = false := by
      simpa [malformedDatagram, hd] using hmal
    obtain ⟨h1, h2⟩ := insert_not_wf b st m0 hw
    have hh : handleDatagram b st d =
        ((insert_location_data b st m0).1, .task (insert_location_data b st m0).2) := by
      simp [handleDatagram, datagram_received, hd]
    refine ⟨by rw [hh]; exact h1, ?_, ?_, ?_⟩
    · simp only [processDatagrams, hh, h1]
    · intro hn
      cases hn
    · intro m hm
      have hm' : m0 = m := Option.some.inj hm
      subst hm'
      exact ⟨by rw [hh], h2⟩

/-- C1 counterexample: the single byte 0xFF is not UTF-8, and on it the
claim as stated fails — the exception does propagate out of the receive
callback (`datagram_received` raises `UnicodeDecodeError`) instead of
the message being discarded with an application-logged warning. -/
theorem C1_counterexample :
    malformedDatagram [255] = true ∧
      (handleDatagram true dbReady [255]).2 = HandleOutcome.raised := ⟨rfl, rfl⟩

/-- C1 witness: the amended theorem applied to the concrete non-UTF-8
datagram 0xFF. -/
theorem C1_witness :
    malformedDatagram [255] = true ∧ (handleDatagram true dbReady [255]).1 = dbReady :=
  ⟨rfl, (C1_malformed_discarded true dbReady [255] [] rfl).1⟩

/-- C2 (corrected): a decoded JSON object payload with `lat`, `lon` or
`time` absent (or JSON null) is still dispatched — the argument tuple is
built from `data.get` with `None` for the missing keys and no ingest
validation rejects it — but the store does not persist nulls for those
columns: `latitude`, `longitude` and `timestamp_value` are `NOT NULL`,
so the insert fails, the error is caught and logged in the task, and no
row is stored. -/
theorem C2_missing_fields (st : DBState) (kvs : List (String × JVal))
    (hmiss : missingOrNull (lookupLast kvs "lat") = true ∨
      missingOrNull (lookupLast kvs "lon") = true ∨
      missingOrNull (lookupLast kvs "time") = true) :
    pyGetValues (.obj kvs) =
      .ok (lookupLast kvs "lat", lookupLast kvs "lon", lookupLast kvs "time") ∧
      processPayload st (.obj kvs) = (st, .processingError) := by
  have hw : wellFormedPayload (JVal.obj kvs) = false := by
    rcases hmiss with h | h | h
    · simp [wellFormedPayload, decimalOk, (missingOrNull_bind_none h).1]
    · simp [wellFormedPayload, decimalOk, (missingOrNull_bind_none h).1]
    · simp [wellFormedPayload, bigintOk, (missingOrNull_bind_none h).2]
  exact ⟨rfl, processPayload_not_wf st _ hw⟩

/-- C2 counterexample: the payload with `time` absent is dispatched with
`None` for `time`, yet no row at all is stored (the table stays empty),
refuting "the corresponding columns are stored as nulls". -/
theorem C2_counterexample :
    jsonLoads msgMissingTime = .ok (.obj [("lat", .int 1), ("lon", .int 2)]) ∧
      pyGetValues (.obj [("lat", JVal.int 1), ("lon", JVal.int 2)]) =
        .ok (some (JVal.int 1), some (JVal.int 2), none) ∧
      (insert_location_data true dbReady msgMissingTime).1.rows = [] ∧
      (insert_location_data true dbReady msgMissingTime).2 = .processingError :=
  ⟨rfl, rfl, rfl, rfl⟩

/-- C2 witness: the amended theorem applied to the concrete payload
missing `time`. -/
theorem C2_witness :
    missingOrNull (lookupLast [("lat", JVal.int 1), ("lon", JVal.int 2)] "time") = true ∧
      processPayload dbReady (.obj [("lat", JVal.int 1), ("lon", JVal.int 2)]) =
        (dbReady, .processingError) :=
  ⟨rfl, (C2_missing_fields dbReady [("lat", JVal.int 1), ("lon", JVal.int 2)]
    (Or.inr (Or.inr rfl))).2⟩

/-- C3 (corrected): any successfully inserted payload with numeric
`lat`/`lon` and integer `time` commits exactly one row holding the
scale-8 roundings of latitude and longitude (equal to the ingested
values exactly when those carry at most 8 decimal places), the exact
timestamp, and the four reserved columns written null; a subsequent
latest query returns exactly those stored values together with
`created_at`.  Two divergences from the claim: the latest response does
not contain the four reserved columns at all (null or otherwise),
because the SELECT lists only `latitude, longitude, timestamp_value,
created_at`; and for an ingested coordinate with more than 8 decimal
places the value returned is the rounded one, not the ingested one. -/
theorem C3_insert_and_latest (st : DBState) (msg : String) (kvs : List (String × JVal))
    (la lo : ℚ) (t : Int)
    (hinv : DBInv st) (hs : st.schema = some location_data_columns)
    (hjson : jsonLoads msg = .ok (.obj kvs))
    (hla : (lookupLast kvs "lat").bind asDecimal = some la)
    (hlo : (lookupLast kvs "lon").bind asDecimal = some lo)
    (ht : (lookupLast kvs "time").bind asBigint = some t)
    (hra : |pgRound8 la| < 100) (hro : |pgRound8 lo| < 1000)
    (hrt : inInt64 t = true) :
    insert_location_data true st msg =
        (afterInsert st (pgRound8 la) (pgRound8 lo) t, .inserted st.nextId) ∧
      (mkInsertedRow st (pgRound8 la) (pgRound8 lo) t).accuracy = none ∧
      (mkInsertedRow st (pgRound8 la) (pgRound8 lo) t).altitude = none ∧
      (mkInsertedRow st (pgRound8 la) (pgRound8 lo) t).speed = none ∧
      (mkInsertedRow st (pgRound8 la) (pgRound8 lo) t).provider = none ∧
      get_latest_location true (afterInsert st (pgRound8 la) (pgRound8 lo) t) =
        .ok [("latitude", .num (pgRound8 la)), ("longitude", .num (pgRound8 lo)),
             ("timestamp_value", .int t), ("created_at", .timestamp st.clock)] ∧
      List.lookup "accuracy"
        (rowToDictLatest (mkInsertedRow st (pgRound8 la) (pgRound8 lo) t)) = none := by
  have hpp := processPayload_wf st kvs la lo t _ hs hla hlo ht hra hro hrt
  have hins : insert_location_data true st msg =
      (afterInsert st (pgRound8 la) (pgRound8 lo) t, .inserted st.nextId) := by
    simp [insert_location_data, hjson, hpp]
  have hinv' := DBInv_afterInsert st (pgRound8 la) (pgRound8 lo) t hinv
  have hsort : sortByIdDesc (st.rows ++ [mkInsertedRow st (pgRound8 la) (pgRound8 lo) t]) =
      mkInsertedRow st (pgRound8 la) (pgRound8 lo) t :: st.rows.reverse := by
    simpa [afterInsert] using sortByIdDesc_eq_reverse _ hinv'.1
  have hlatest : get_latest_location true (afterInsert st (pgRound8 la) (pgRound8 lo) t) =
      .ok (rowToDictLatest (mkInsertedRow st (pgRound8 la) (pgRound8 lo) t)) := by
    simp [get_latest_location, hs, hsort, afterInsert]
  exact ⟨hins, rfl, rfl, rfl, rfl,
    by simpa [rowToDictLatest, mkInsertedRow] using hlatest, rfl⟩

/-- C3 counterexample: after ingesting the example payload into a fresh
table, the latest response body carries exactly the four selected
fields — the reserved columns are absent from it rather than null, so
"returns null for the four reserved columns" fails; and ingesting a
latitude of 1.000000001 stores and returns the rounded 1.00000000, so
"returns exactly those three ingested values" also fails. -/
theorem C3_counterexample :
    get_latest_location true dbOneRow = .ok latestBodyOne ∧
      List.lookup "accuracy" latestBodyOne = none ∧
      List.lookup "altitude" latestBodyOne = none ∧
      List.lookup "speed" latestBodyOne = none ∧
      List.lookup "provider" latestBodyOne = none ∧
      jsonLoads msgRound =
        .ok (.obj [("lat", .float (1000000001 / 1000000000)),
                   ("lon", .int 2), ("time", .int 3)]) ∧
      pgRound8 (1000000001 / 1000000000) = 1 ∧
      ¬ ((1000000001 / 1000000000 : ℚ) = 1) ∧
      get_latest_location true (insert_location_data true dbReady msgRound).1 =
        .ok latestBodyOne := by
  refine ⟨?_, rfl, rfl, rfl, rfl, ?_, ?_, ?_, ?_⟩
  · with_unfolding_all rfl
  · with_unfolding_all rfl
  · with_unfolding_all decide
  · with_unfolding_all decide
  · with_unfolding_all decide

/-- C3 witness: the amended theorem applied to the concrete message
ingested into a fresh table. -/
theorem C3_witness :
    insert_location_data true dbReady msgFull =
      (afterInsert dbReady (pgRound8 1) (pgRound8 2) 3, .inserted 1) :=
  (C3_insert_and_latest dbReady msgFull
    [("lat", .int 1), ("lon", .int 2), ("time", .int 3)] 1 2 3
    dbReady_inv rfl rfl (by decide) (by decide) (by decide)
    (by with_unfolding_all decide) (by with_unfolding_all decide) (by decide)).1

/-- C6 (confirmed): with no usable pool the latest endpoint answers 503;
on an existing empty table it answers 404; and after exactly one
successful insert it answers 200 with that row's latitude, longitude,
timestamp_value and created_at (the coordinates as stored, i.e. rounded
to the DECIMAL scale of 8). -/
theorem C6_latest_endpoint (st : DBState) (msg : String) (kvs : List (String × JVal))
    (la lo : ℚ) (t : Int)
    (hs : st.schema = some location_data_columns) (hrows : st.rows = [])
    (hjson : jsonLoads msg = .ok (.obj kvs))
    (hla : (lookupLast kvs "lat").bind asDecimal = some la)
    (hlo : (lookupLast kvs "lon").bind asDecimal = some lo)
    (ht : (lookupLast kvs "time").bind asBigint = some t)
    (hra : |pgRound8 la| < 100) (hro : |pgRound8 lo| < 1000)
    (hrt : inInt64 t = true) :
    get_latest_location false st =
        .httpError 503 "Servicio no disponible (sin conexion a BD)" ∧
      get_latest_location true st = .httpError 404 "No hay datos disponibles" ∧
      (insert_location_data true st msg).1.rows =
        [mkInsertedRow st (pgRound8 la) (pgRound8 lo) t] ∧
      get_latest_location true (insert_location_data true st msg).1 =
        .ok (rowToDictLatest (mkInsertedRow st (pgRound8 la) (pgRound8 lo) t)) := by
  have hinv : DBInv st := by
    constructor
    · rw [hrows]
      exact List.Pairwise.nil
    · rw [hrows]
      intro r hr
      cases hr
  have hpp := processPayload_wf st kvs la lo t _ hs hla hlo ht hra hro hrt
  have hins : insert_location_data true st msg =
      (afterInsert st (pgRound8 la) (pgRound8 lo) t, .inserted st.nextId) := by
    simp [insert_location_data, hjson, hpp]
  refine ⟨rfl, ?_, ?_, ?_⟩
  · simp [get_latest_location, hs, hrows, sortByIdDesc]
  · rw [hins]
    simp [afterInsert, hrows]
  · rw [hins]
    have hsingle : sortByIdDesc [mkInsertedRow st (pgRound8 la) (pgRound8 lo) t] =
        [mkInsertedRow st (pgRound8 la) (pgRound8 lo) t] := rfl
    simp [get_latest_location, hs, hsingle, afterInsert, hrows]

/-- C6 witness: the theorem applied to a fresh table and the concrete
example message. -/
theorem C6_witness :
    get_latest_location true dbReady = .httpError 404 "No hay datos disponibles" ∧
      get_latest_location true (insert_location_data true dbReady msgFull).1 =
        .ok (rowToDictLatest (mkInsertedRow dbReady (pgRound8 1) (pgRound8 2) 3)) :=
  ⟨(C6_latest_endpoint dbReady msgFull
      [("lat", .int 1), ("lon", .int 2), ("time", .int 3)] 1 2 3
      rfl rfl rfl (by decide) (by decide) (by decide)
      (by with_unfolding_all decide) (by with_unfolding_all decide) (by decide)).2.1,
   (C6_latest_endpoint dbReady msgFull
      [("lat", .int 1), ("lon", .int 2), ("time", .int 3)] 1 2 3
      rfl rfl rfl (by decide) (by decide) (by decide)
      (by with_unfolding_all decide) (by with_unfolding_all decide) (by decide)).2.2.2⟩

/-- C7 (confirmed): when pool construction fails at startup the lifespan
still completes (the exception is caught inside `create_db_pool`, which
returns `None`), leaving the process in degraded mode with the store
untouched, and every call to either query endpoint — any limit, or the
default — answers 503 instead of crashing or returning data. -/
theorem C7_degraded_startup (db : DBState) (L : Int) :
    (lifespan_startup false db).db_pool = false ∧
      (lifespan_startup false db).db = db ∧
      get_latest_location (lifespan_startup false db).db_pool
        (lifespan_startup false db).db =
        .httpError 503 "Servicio no disponible (sin conexion a BD)" ∧
      get_all_locations (lifespan_startup false db).db_pool
        (lifespan_startup false db).db L =
        .httpError 503 "Servicio no disponible (sin conexion a BD)" ∧
      get_all_locations_default (lifespan_startup false db).db_pool
        (lifespan_startup false db).db =
        .httpError 503 "Servicio no disponible (sin conexion a BD)" :=
  ⟨rfl, rfl, rfl, rfl, rfl⟩

/-- C7 witness: the theorem applied to a concrete store and limit. -/
theorem C7_witness :
    get_latest_location (lifespan_startup false dbEmpty).db_pool
      (lifespan_startup false dbEmpty).db =
      .httpError 503 "Servicio no disponible (sin conexion a BD)" :=
  (C7_degraded_startup dbEmpty 7).2.2.1

/-- C8 (confirmed): schema initialization is idempotent — running it
twice equals running it once; it creates the `location_data` table with
its DDL columns when absent and is the identity when the table already
exists, so it is safe on every process start. -/
theorem C8_schema_idempotent (st : DBState) :
    create_location_table (create_location_table st) = create_location_table st ∧
      (st.schema = none → create_location_table st =
        { st with schema := some location_data_columns, rows := [], nextId := 1 }) ∧
      (∀ s, st.schema = some s → create_location_table st = st) := by
  cases hs : st.schema with
  | none =>
    refine ⟨?_, ?_, ?_⟩
    · simp [create_location_table, hs]
    · intro _
      simp [create_location_table, hs]
    · intro s h
      cases h
  | some s0 =>
    refine ⟨?_, ?_, ?_⟩
    · simp [create_location_table, hs]
    · intro h
      cases h
    · intro s h
      simp [create_location_table, hs]

/-- C8 witness: the theorem applied to a store with no table. -/
theorem C8_witness :
    create_location_table (create_location_table dbEmpty) =
        create_location_table dbEmpty ∧
      create_location_table dbEmpty =
        { dbEmpty with schema := some location_data_columns, rows := [], nextId := 1 } :=
  ⟨(C8_schema_idempotent dbEmpty).1, (C8_schema_idempotent dbEmpty).2.1 rfl⟩

/-- C9 (confirmed): two decoded JSON object payloads agreeing on the
values of `lat`, `lon` and `time` dispatch identical argument tuples,
and when the insert commits, the committed rows agree on every column
except the server-assigned `id` and `created_at` — keys other than
`lat`, `lon`, `time` have no effect on the stored row. -/
theorem C9_unrecognized_keys (st1 st2 : DBState) (kvs1 kvs2 : List (String × JVal))
    (s1 s2 : List ColumnDef) (_hs1 : st1.schema = some s1) (hs2 : st2.schema = some s2)
    (hla : lookupLast kvs1 "lat" = lookupLast kvs2 "lat")
    (hlo : lookupLast kvs1 "lon" = lookupLast kvs2 "lon")
    (ht : lookupLast kvs1 "time" = lookupLast kvs2 "time") :
    pyGetValues (.obj kvs1) = pyGetValues (.obj kvs2) ∧
      ∀ r1, (processPayload st1 (.obj kvs1)).1.rows = st1.rows ++ [r1] →
        ∃ r2, (processPayload st2 (.obj kvs2)).1.rows = st2.rows ++ [r2] ∧
          r1.latitude = r2.latitude ∧ r1.longitude = r2.longitude ∧
          r1.timestamp_value = r2.timestamp_value ∧ r1.accuracy = r2.accuracy ∧
          r1.altitude = r2.altitude ∧ r1.speed = r2.speed ∧ r1.provider = r2.provider := by
  constructor
  · simp [pyGetValues, pyGet, hla, hlo, ht]
  · intro r1 hr1
    cases hdb : dbInsert st1 (lookupLast kvs1 "lat") (lookupLast kvs1 "lon")
        (lookupLast kvs1 "time") with
    | error e =>
      have hfail : processPayload st1 (.obj kvs1) = (st1, .processingError) := by
        simp [processPayload, pyGetValues, pyGet, hdb]
      rw [hfail] at hr1
      simp at hr1
    | ok x =>
      obtain ⟨qa, qo, qt, ha, ho, htt, hra, hro, hrt, hx⟩ :=
        dbInsert_ok_inv st1 _ _ _ x hdb
      have hpp1 : processPayload st1 (.obj kvs1) =
          (afterInsert st1 (pgRound8 qa) (pgRound8 qo) qt, .inserted st1.nextId) := by
        simp [processPayload, pyGetValues, pyGet, hdb, hx]
      have hr1' : r1 = mkInsertedRow st1 (pgRound8 qa) (pgRound8 qo) qt := by
        rw [hpp1] at hr1
        simp only [afterInsert] at hr1
        have h2 := List.append_cancel_left hr1
        simp at h2
        exact h2.symm
      have hpp2 : processPayload st2 (.obj kvs2) =
          (afterInsert st2 (pgRound8 qa) (pgRound8 qo) qt, .inserted st2.nextId) :=
        processPayload_wf st2 kvs2 qa qo qt s2 hs2 (hla ▸ ha) (hlo ▸ ho) (ht ▸ htt)
          hra hro hrt
      refine ⟨mkInsertedRow st2 (pgRound8 qa) (pgRound8 qo) qt,
        by rw [hpp2]; simp [afterInsert], ?_⟩
      rw [hr1']
      exact ⟨rfl, rfl, rfl, rfl, rfl, rfl, rfl⟩

/-- C9 witness: the theorem applied to the same payload with and without
an extra `battery` key, against two different store states. -/
theorem C9_witness :
    pyGetValues (.obj payloadExtra) = pyGetValues (.obj payloadPlain) :=
  (C9_unrecognized_keys dbReady dbOneRow payloadExtra payloadPlain
    location_data_columns location_data_columns rfl (by with_unfolding_all rfl)
    rfl rfl rfl).1

